import Mathlib

/-!
Shallow embedding of the go-log structured logging library (exograd/go-log).

The Logger (domain, inherited fields, debug threshold, backend reference),
its `Child`, `Log`, `Debug` and `Write` operations, and the syslog backend
(RFC 5424 rendering, structured-data escaping, octet-counted framing, and
the mutex-guarded lazy TCP connection with its write-and-retry policy) are
translated from `backend-terminal.go` (logger part) and `backend_syslog.go`.

External collaborators (Go standard library calls) are passed in as
parameters: the wall clock (`now : MTime`), the RFC 3339 time formatter
(`fmtTime`), `os.Hostname` (`hostname?`), `os.Getpid` (`pid`), and the
network (a dial oracle and a write oracle consumed by attempt index).
The network model records the events (dials, writes with their payload,
closes) that the backend performs, so that theorems can count connection
attempts and inspect written payloads.
-/

namespace GoLog

set_option linter.dupNamespace false

/-- Modelled from the spec: `Level` is defined in a repository file that is
not under `src/`. Spec section 3: "Level — enumeration {Debug, Info, Error}". -/
inductive Level where
  | debug
  | info
  | error
deriving DecidableEq, Repr

/-- Modelled from the spec: `Datum` is defined in a repository file that is
not under `src/`. Spec section 3: "a single field value; semantically one of
{string, integer, float, boolean, ...}" (floating point is excluded from the
embedding). -/
inductive Datum where
  | str (s : String)
  | int (n : Int)
  | boolean (b : Bool)
deriving DecidableEq, Repr

/-- Modelled from the spec: `Data` is defined in a repository file that is
not under `src/`. Spec section 3: "a mapping from field name (string) to
Datum; keys unique". Embedded as an association list; the list order stands
for the (unspecified) map iteration order. -/
abbrev Data := List (String × Datum)

/-- Modelled from the spec: `MergeData` is defined in a repository file that
is not under `src/`. Spec section 4.1: "returns a new mapping containing
every key of base, overwritten by every key of override where keys collide;
neither input is mutated". -/
def MergeData (base override : Data) : Data :=
  base.filter (fun kv => !(override.any (fun kv2 => kv2.1 == kv.1))) ++ override

/-- A Go `time.Time`: an instant (nanoseconds) plus its display location,
abstracted to the one bit the library inspects (UTC or not). `t.UTC()`
keeps the instant and sets the location to UTC. -/
structure MTime where
  instant : Int
  isUTC : Bool
deriving DecidableEq, Repr

def MTime.toUTC (t : MTime) : MTime := { t with isUTC := true }

/-- Modelled from the spec (the Go file defining `Message` is not under
`src/`; its fields are read off from their uses in `src/backend-terminal.go`
and `src/backend_syslog.go` and spec section 3): level, debug sub-level,
message body, optional Data payload (`nil` map vs empty map), optional
timestamp, and the logger-assigned domain. Field defaults are the Go zero
values used by composite literals such as `Message{Level: ..., Message: ...}`. -/
structure Message where
  Level : Level
  DebugLevel : Int := 0
  Message : String := ""
  Data : Option Data := none
  Time : Option MTime := none
  domain : String := ""
deriving DecidableEq, Repr

/-- Translates `LoggerCfg` of `backend-terminal.go` restricted to the field the Logger
operations read (`DebugLevel`); backend selection/JSON decoding is external
configuration handling outside the claims. -/
structure LoggerCfg where
  DebugLevel : Int := 0
deriving DecidableEq, Repr

/-- Translates `Logger` of `backend-terminal.go`. The `Backend` interface pointer is
embedded as an opaque reference identity (`Nat`), which is all `Child`'s
sharing contract observes. -/
structure Logger where
  Cfg : LoggerCfg := {}
  Backend : Nat
  Domain : String
  Data : Data
  DebugLevel : Int
deriving DecidableEq, Repr

/-- Translates `Logger.Child` from `src/backend-terminal.go` lines 196-212. -/
def Logger.Child (l : Logger) (domain : String) (data : GoLog.Data) : Logger :=
  let childDomain := if domain ≠ "" then l.Domain ++ "." ++ domain else l.Domain
  { Cfg := l.Cfg
    Backend := l.Backend
    Domain := childDomain
    Data := MergeData l.Data data
    DebugLevel := l.DebugLevel }

/-- Translates `Logger.Log` from `src/backend-terminal.go` lines 214-238. The result is
the single `Backend.Log` invocation the call performs: `none` when the
message is dropped by debug filtering (zero backend invocations), and
`some m` when the backend is invoked exactly once with message `m`.
`now` is the value `time.Now()` would return. -/
def Logger.Log (l : Logger) (now : MTime) (msg : Message) : Option Message :=
  if msg.Level = Level.debug ∧ l.DebugLevel < msg.DebugLevel then
    none
  else
    let t := (msg.Time.getD now).toUTC
    let data := msg.Data.getD []
    some { msg with
            Time := some t
            domain := l.Domain
            Data := some (MergeData l.Data data) }

/-- Translates `Logger.Debug` from `src/backend-terminal.go` lines 240-246, applied to
an already-formatted message body (`fmt.Sprintf` is treated as external
string formatting). -/
def Logger.Debug (l : Logger) (now : MTime) (level : Int) (message : String) :
    Option Message :=
  l.Log now { Level := Level.debug, DebugLevel := level, Message := message }

/-- The ASCII unit separator used by the generic writer sink adapter. -/
def usChar : Char := Char.ofNat 0x1f

/-- Go standard library `strings.TrimSpace`: removes leading and trailing
whitespace (restricted to the ASCII whitespace classes the claims exercise). -/
def trimSpace (s : String) : String :=
  String.mk (((s.toList.dropWhile Char.isWhitespace).reverse.dropWhile
    Char.isWhitespace).reverse)

/-- Go split: `bytes.IndexByte(data, 0x1f)` followed by the two slicings
`data[:idx]` / `data[idx+1:]`: splits at the first unit separator. -/
def splitAtFirstUS (chars : List Char) : Option (List Char × List Char) :=
  match chars.findIdx? (fun c => c = usChar) with
  | none => none
  | some i => some (chars.take i, chars.drop (i + 1))

/-- Translates `Logger.Write` from `src/backend-terminal.go` lines 297-332. Returns the
backend invocation performed by the inner `Log` call (as in `Logger.Log`)
together with the Go return values `(int, error)`. Note that `msg` is only
assigned inside the `idx >= 0` branch of the source; when the separator is
absent it keeps its zero value `""`. -/
def Logger.Write (l : Logger) (now : MTime) (data : String) :
    Option Message × Nat × Option String :=
  let lm : Level × String :=
    match splitAtFirstUS data.toList with
    | none => (Level.info, "")
    | some (pre, post) =>
      let levelString := String.mk pre
      if levelString = "debug" then (Level.debug, String.mk post)
      else if levelString = "info" then (Level.info, String.mk post)
      else if levelString = "error" then (Level.error, String.mk post)
      else (Level.info, data)
  let msg := trimSpace lm.2
  (l.Log now { Level := lm.1, Message := msg }, data.utf8ByteSize, none)

/- ## Syslog backend (`src/backend_syslog.go`) -/

def BOM : String := "\uFEFF"

def FacilityCode : Int := 16

structure SyslogBackendCfg where
  Host : String := ""
  Port : Int := 0
  ApplicationName : String := ""
deriving DecidableEq, Repr

/-- Translates `getSeverityCode` from `src/backend_syslog.go` lines 174-187. -/
def getSeverityCode (l : Level) : Int :=
  match l with
  | Level.debug => 7
  | Level.info => 6
  | Level.error => 3

/-- The body of the `for _, rune := range src` loop of
`escapeSdElementValue`: one step of appending to the `bytes.Buffer`. -/
def escapeStep (dest : String) (r : Char) : String :=
  if r = '\\' then dest ++ "\\\\"
  else if r = '"' then dest ++ "\\\""
  else if r = ']' then dest ++ "\\]"
  else dest.push r

/-- Translates `escapeSdElementValue` from `src/backend_syslog.go` lines 189-206. -/
def escapeSdElementValue (src : String) : String :=
  src.toList.foldl escapeStep ""

/-- Translates `formatDatum2` from `src/backend_syslog.go` lines 208-217 (the
`fmt.Stringer` case collapses with the `string` case in the embedding;
`%v` on an `Int`/`Bool` is decimal / `true`-`false`). -/
def formatDatum2 (datum : Datum) : String :=
  match datum with
  | Datum.str v => v
  | Datum.int n => toString n
  | Datum.boolean b => if b then "true" else "false"

/-- The SD-PARAM strings built by the `for key, value := range msg.Data`
loop of `SyslogBackend.Log` (`src/backend_syslog.go` lines 140-145). -/
def sdParams (d : Data) : List String :=
  d.map (fun kv => kv.1 ++ "=\"" ++ escapeSdElementValue (formatDatum2 kv.2) ++ "\"")

/-- The RFC 5424 line built by `SyslogBackend.Log` (`src/backend_syslog.go`
lines 106-167) before it is handed to `writeAndRetry`. `fmtTime` stands for
`Format(time.RFC3339Nano)`, `hostname?` for the `os.Hostname()` result
(`none` = error, rendered `"-"`), `pid` for `os.Getpid()`. The two branches
mirror the two format strings of the source
(`"<%d>%d %s %s %s %d %s [%s] %s"` and `"<%d>%d %s %s %s %d %s [%s %s] %s"`). -/
def renderLine (fmtTime : MTime → String) (cfg : SyslogBackendCfg)
    (hostname? : Option String) (pid : Int) (msg : Message) : String :=
  let pri := FacilityCode * 8 + getSeverityCode msg.Level
  let version : Int := 1
  let datetime := fmtTime (msg.Time.getD ⟨0, false⟩)
  let hostname := hostname?.getD "-"
  let appname := if cfg.ApplicationName = "" then "-" else cfg.ApplicationName
  let procid := pid
  let msgid := "-"
  let sdElementId := "go-log@32473"
  let sdElementParameters := sdParams (msg.Data.getD [])
  let message := BOM ++ msg.Message
  if sdElementParameters.isEmpty then
    "<" ++ toString pri ++ ">" ++ toString version ++ " " ++ datetime ++ " " ++
      hostname ++ " " ++ appname ++ " " ++ toString procid ++ " " ++ msgid ++
      " [" ++ sdElementId ++ "] " ++ message
  else
    "<" ++ toString pri ++ ">" ++ toString version ++ " " ++ datetime ++ " " ++
      hostname ++ " " ++ appname ++ " " ++ toString procid ++ " " ++ msgid ++
      " [" ++ sdElementId ++ " " ++ String.intercalate " " sdElementParameters ++
      "] " ++ message

/-- Network-visible actions of the syslog backend. A connection is a `Nat`
identity handed out by the dial oracle. -/
inductive Event where
  | dial
  | write (conn : Nat) (payload : String)
  | close (conn : Nat)
deriving DecidableEq, Repr

/-- The mutable state of a `SyslogBackend` (`b.conn`) together with the
recorded interaction with the outside world: oracle consumption counters,
the set of closed connections (a `net.Conn` write after `Close` always
fails), the event trace, and the diagnostic stream (`os.Stderr`). -/
structure World where
  conn : Option Nat
  dialCount : Nat := 0
  writeCount : Nat := 0
  closed : List Nat := []
  events : List Event := []
  diagnostics : List String := []
deriving DecidableEq, Repr

/-- Outcome of `net.Dial` as seen by `connect`: the outcome of the `n`-th dial attempt
(`some c` = a fresh connection `c`, `none` = dial error). -/
abbrev DialOracle := Nat → Option Nat

/-- The oracle outcome of the `n`-th socket write attempt; a write on an
already-closed connection fails regardless of the oracle. -/
abbrev WriteOracle := Nat → Bool

/-- Translates `SyslogBackend.connect` from `src/backend_syslog.go` lines 62-77:
a no-op when `b.conn != nil`, otherwise one dial; on dial failure `b.conn`
is (re)set to `nil` and an error is returned. -/
def SyslogBackend.connect (dial : DialOracle) (w : World) : World × Option String :=
  match w.conn with
  | some _ => (w, none)
  | none =>
    let res := dial w.dialCount
    let w' := { w with dialCount := w.dialCount + 1, events := w.events ++ [Event.dial] }
    match res with
    | none => ({ w' with conn := none }, some "cannot connect to the syslog daemon")
    | some c => ({ w' with conn := some c }, none)

/-- One `conn.Write(buf)` call: fails if the connection was closed (TCP
semantics of `net.Conn`), otherwise the oracle decides. -/
def connWrite (writeOk : WriteOracle) (w : World) (c : Nat) (payload : String) :
    World × Bool :=
  let ok := !(w.closed.contains c) && writeOk w.writeCount
  ({ w with writeCount := w.writeCount + 1
            events := w.events ++ [Event.write c payload] }, ok)

/-- One `conn.Close()` call. -/
def connClose (w : World) (c : Nat) : World :=
  { w with closed := c :: w.closed, events := w.events ++ [Event.close c] }

/-- Translates `SyslogBackend.writeAndRetry` from `src/backend_syslog.go` lines 79-104.
The frame is `strconv.Itoa(msg.Len()) + " "` followed by the message bytes.
The `none` branches of the inner matches correspond to dereferencing
`b.conn` right after a successful `connect`, which always leaves
`b.conn != nil`; they are unreachable. -/
def SyslogBackend.writeAndRetry (dial : DialOracle) (writeOk : WriteOracle)
    (w : World) (msg : String) : World × Option String :=
  let buf := toString msg.utf8ByteSize ++ " " ++ msg
  match SyslogBackend.connect dial w with
  | (w1, some e) => (w1, some ("cannot write log message: " ++ e))
  | (w1, none) =>
    match w1.conn with
    | none => (w1, some "unreachable: nil connection after successful connect")
    | some c =>
      match connWrite writeOk w1 c buf with
      | (w2, true) => (w2, none)
      | (w2, false) =>
        let w3 := connClose w2 c
        match SyslogBackend.connect dial w3 with
        | (w4, some e) => (w4, some e)
        | (w4, none) =>
          match w4.conn with
          | none => (w4, some "unreachable: nil connection after successful connect")
          | some c2 =>
            match connWrite writeOk w4 c2 buf with
            | (w5, true) => (w5, none)
            | (w5, false) =>
              let w6 := connClose w5 c2
              ({ w6 with conn := none }, some "cannot write log message")

/-- Translates `NewSyslogBackend` from `src/backend_syslog.go` lines 48-59: builds the
backend (initial `conn = nil`) and immediately calls `connect`; a connect
failure makes construction fail with the wrapped error (second component
`some err`, no backend value). -/
def NewSyslogBackend (dial : DialOracle) (_cfg : SyslogBackendCfg) :
    World × Option String :=
  let w : World := { conn := none }
  match SyslogBackend.connect dial w with
  | (w1, some e) => (w1, some ("cannot initialize syslog backend: " ++ e))
  | (w1, none) => (w1, none)

/-- Translates `SyslogBackend.Log` from `src/backend_syslog.go` lines 106-172: renders
the RFC 5424 line, hands it to `writeAndRetry`, and prints any failure to
`os.Stderr` (the diagnostics list). It returns only the new world: no error
can reach the caller. -/
def SyslogBackend.Log (dial : DialOracle) (writeOk : WriteOracle)
    (fmtTime : MTime → String) (cfg : SyslogBackendCfg)
    (hostname? : Option String) (pid : Int) (w : World) (msg : Message) : World :=
  let buf := renderLine fmtTime cfg hostname? pid msg
  match SyslogBackend.writeAndRetry dial writeOk w buf with
  | (w1, some e) => { w1 with diagnostics := w1.diagnostics ++ [e] }
  | (w1, none) => w1

/-- Counts the dial attempts recorded in an event trace. -/
def dialCountOf (events : List Event) : Nat :=
  (events.filter (fun e => match e with | Event.dial => true | _ => false)).length

end GoLog

namespace GoLog

/- ## Sample concrete values used by counterexamples and witnesses -/

/-- A sample logger with debug threshold 0. -/
def lA : Logger := { Backend := 0, Domain := "app", Data := [], DebugLevel := 0 }

/-- A sample logger with debug threshold 2 (the spec scenario `debug_level=2`). -/
def l2 : Logger := { Backend := 0, Domain := "app", Data := [], DebugLevel := 2 }

/-- A sample wall-clock value, not in UTC. -/
def now0 : MTime := { instant := 1000, isUTC := false }

/-- A sample info-level message with no caller-supplied time or data. -/
def msgInfo : Message := { Level := Level.info }

/-- A sample debug message with sub-level 3. -/
def msgD3 : Message := { Level := Level.debug, DebugLevel := 3, Message := "x" }

/-- The message `Logger.Log` delivers for `lA.Log now0 msgInfo`. -/
def mOut : Message :=
  { Level := Level.info
    Message := ""
    Data := some []
    Time := some { instant := 1000, isUTC := true }
    domain := "app" }

/-- World of a syslog backend holding a live connection `0`. -/
def c1w : World := { conn := some 0 }

/-- Run of `writeAndRetry` on a live connection whose first write fails,
while the dial oracle would hand out a fresh connection `1` and every
subsequent write on a live connection would succeed. -/
def c1r : World × Option String :=
  SyslogBackend.writeAndRetry (fun _ => some 1) (fun i => decide (0 < i)) c1w "hello"

/-- A syslog configuration pointing at an unreachable host. -/
def c5cfg : SyslogBackendCfg := { Host := "unreachable.example", Port := 514 }

/-- Constructing the syslog backend when every dial fails. -/
def c5r : World × Option String := NewSyslogBackend (fun _ => none) c5cfg

/-- World of a syslog backend whose connection was torn down (disconnected). -/
def c5wDis : World := { conn := none }

/-- The spec section 6 example message: info level, `login ok`, no fields. -/
def c7msg : Message :=
  { Level := Level.info, Message := "login ok", Data := some [], Time := some ⟨0, true⟩ }

/-- The first seven space-separated fields of the rendered RFC 5424 line
(PRI through MSGID), used to state the shape of the STRUCTURED-DATA field. -/
def renderHeader (fmtTime : MTime → String) (cfg : SyslogBackendCfg)
    (hostname? : Option String) (pid : Int) (msg : Message) : String :=
  "<" ++ toString (FacilityCode * 8 + getSeverityCode msg.Level) ++ ">" ++
    toString (1 : Int) ++ " " ++ fmtTime (msg.Time.getD ⟨0, false⟩) ++ " " ++
    hostname?.getD "-" ++ " " ++
    (if cfg.ApplicationName = "" then "-" else cfg.ApplicationName) ++ " " ++
    toString pid ++ " " ++ "-"

end GoLog

namespace GoLog

/- ## Claim theorems -/

/-- C2: for every Logger `P` and arguments `(name, data)`, `P.Child name data`
is a new Logger whose domain is `P.Domain ++ "." ++ name` when `name` is
non-empty and exactly `P.Domain` when `name` is empty, whose field set is
`MergeData P.Data data`, and which shares `P`'s backend reference and debug
threshold. (`P` itself is immutable in the pure embedding, so the call cannot
mutate it.) -/
theorem c2_child : ∀ (P : Logger) (name : String) (data : Data),
    (P.Child name data).Domain =
      (if name = "" then P.Domain else P.Domain ++ "." ++ name) ∧
    (P.Child name data).Data = MergeData P.Data data ∧
    (P.Child name data).Backend = P.Backend ∧
    (P.Child name data).DebugLevel = P.DebugLevel := by
  intro P name data
  refine ⟨?_, rfl, rfl, rfl⟩
  by_cases h : name = "" <;> simp [Logger.Child, h]

/-- C3: a message with `Level = debug` and `DebugLevel` strictly above the
logger's threshold is dropped (zero backend invocations, `Log` has no error
channel); every other message is delivered to the backend exactly once.
Scenario: with threshold 2, `Debug 3 "x"` performs no backend call and
`Debug 1 "x"` performs exactly one backend call with `DebugLevel = 1`. -/
theorem c3_debug_filter :
    ∀ (l : Logger) (now : MTime) (msg : Message),
      (msg.Level = Level.debug → l.DebugLevel < msg.DebugLevel →
        l.Log now msg = none) ∧
      (¬(msg.Level = Level.debug ∧ l.DebugLevel < msg.DebugLevel) →
        (l.Log now msg).isSome = true) ∧
      (l.DebugLevel = 2 →
        l.Debug now 3 "x" = none ∧
        ∃ m, l.Debug now 1 "x" = some m ∧ m.DebugLevel = 1) := by
  intro l now msg
  refine ⟨fun h1 h2 => by simp [Logger.Log, h1, h2], fun h => by simp [Logger.Log, h], ?_⟩
  intro h
  constructor
  · simp [Logger.Debug, Logger.Log, h]
  · exact ⟨{ Level := Level.debug, DebugLevel := 1, Message := "x",
             Data := some (MergeData l.Data []), Time := some now.toUTC,
             domain := l.Domain },
           by simp [Logger.Debug, Logger.Log, h], rfl⟩

/-- Witness for C3 at the spec scenario: logger `l2` with threshold 2. -/
theorem c3_debug_filter_witness :
    (msgD3.Level = Level.debug → l2.DebugLevel < msgD3.DebugLevel →
      l2.Log now0 msgD3 = none) ∧
    (¬(msgInfo.Level = Level.debug ∧ l2.DebugLevel < msgInfo.DebugLevel) →
      (l2.Log now0 msgInfo).isSome = true) ∧
    (l2.Log now0 msgD3 = none) ∧
    ((l2.Log now0 msgInfo).isSome = true) ∧
    (l2.Debug now0 3 "x" = none ∧
      ∃ m, l2.Debug now0 1 "x" = some m ∧ m.DebugLevel = 1) :=
  ⟨(c3_debug_filter l2 now0 msgD3).1,
   (c3_debug_filter l2 now0 msgInfo).2.1,
   (c3_debug_filter l2 now0 msgD3).1 rfl (by decide),
   (c3_debug_filter l2 now0 msgInfo).2.1 (by decide),
   (c3_debug_filter l2 now0 msgD3).2.2 rfl⟩

/-- C4: every message `Logger.Log` forwards to the backend carries a
non-null UTC timestamp — the caller-supplied time converted to UTC when one
was given, the current time (converted to UTC) when the caller's timestamp
was null — and its domain equals the emitting logger's domain. -/
theorem c4_utc_invariant :
    ∀ (l : Logger) (now : MTime) (msg m : Message),
      l.Log now msg = some m →
      (∃ t, m.Time = some t ∧ t.isUTC = true ∧
        (msg.Time = none → t = now.toUTC) ∧
        (∀ t0, msg.Time = some t0 → t = t0.toUTC)) ∧
      m.domain = l.Domain := by
  intro l now msg m h
  unfold Logger.Log at h
  split at h
  · exact absurd h (by simp)
  · rw [Option.some.injEq] at h
    subst h
    refine ⟨⟨(msg.Time.getD now).toUTC, rfl, rfl, ?_, ?_⟩, rfl⟩
    · intro ht; simp [ht]
    · intro t0 ht; simp [ht]

/-- Witness for C4: the concrete delivery `lA.Log now0 msgInfo = some mOut`. -/
theorem c4_utc_invariant_witness :
    (∃ t, mOut.Time = some t ∧ t.isUTC = true ∧
      (msgInfo.Time = none → t = now0.toUTC) ∧
      (∀ t0, msgInfo.Time = some t0 → t = t0.toUTC)) ∧
    mOut.domain = lA.Domain :=
  c4_utc_invariant lA now0 msgInfo mOut (by decide)

/-- C10: `Logger.Write` always returns the full byte length of its input
and a nil error, whatever the input content. -/
theorem c10_write_returns :
    ∀ (l : Logger) (now : MTime) (data : String),
      (l.Write now data).2.1 = data.utf8ByteSize ∧
      (l.Write now data).2.2 = none :=
  fun _ _ _ => ⟨rfl, rfl⟩

end GoLog

namespace GoLog

/- ## Helper lemmas -/

theorem push_eq_append_singleton (s : String) (c : Char) :
    s.push c = s ++ String.singleton c := by
  apply String.ext
  simp [String.data_push, String.singleton]

theorem escapeStep_shift (acc : String) (c : Char) :
    escapeStep acc c = acc ++ escapeStep "" c := by
  unfold escapeStep
  by_cases h1 : c = '\\' <;> by_cases h2 : c = '"' <;> by_cases h3 : c = ']' <;>
    simp [h1, h2, h3, push_eq_append_singleton]

theorem foldl_escapeStep_acc (l : List Char) (acc : String) :
    l.foldl escapeStep acc = acc ++ l.foldl escapeStep "" := by
  induction l generalizing acc with
  | nil => simp [List.foldl]
  | cons c cs ih =>
    rw [List.foldl_cons, List.foldl_cons, ih (escapeStep acc c), ih (escapeStep "" c),
      escapeStep_shift acc c, String.append_assoc]

theorem toList_append (s t : String) : (s ++ t).toList = s.toList ++ t.toList := by
  simp [String.toList, String.data_append]

/-- Shared shape lemma: the rendered RFC 5424 line is the seven header
fields, one bracketed SD-element (element ID alone, or element ID plus the
space-separated parameters), a space, and the BOM-prefixed body. -/
theorem renderLine_decomp :
    ∀ (f : MTime → String) (cfg : SyslogBackendCfg) (h : Option String)
      (p : Int) (msg : Message),
      renderLine f cfg h p msg =
        renderHeader f cfg h p msg ++ " [" ++
          (if (sdParams (msg.Data.getD [])).isEmpty then "go-log@32473"
           else "go-log@32473" ++ " " ++
             String.intercalate " " (sdParams (msg.Data.getD []))) ++
          "] " ++ (BOM ++ msg.Message) := by
  intro f cfg h p msg
  by_cases hE : (sdParams (msg.Data.getD [])).isEmpty
  · simp [renderLine, renderHeader, hE, String.append_assoc]
  · simp [renderLine, renderHeader, hE, String.append_assoc]
    rfl

/- ## Remaining claim theorems -/

/-- C8: `escapeSdElementValue` is a character-wise map that sends backslash
to `\\`, double-quote to `\"` and the closing bracket to `\]`, and leaves
every other character unchanged (stated as: it distributes over
concatenation, acts as required on the three special one-character strings,
and fixes every other single-character string). -/
theorem c8_escape :
    (∀ s t : String, escapeSdElementValue (s ++ t) =
      escapeSdElementValue s ++ escapeSdElementValue t) ∧
    escapeSdElementValue "\\" = "\\\\" ∧
    escapeSdElementValue "\"" = "\\\"" ∧
    escapeSdElementValue "]" = "\\]" ∧
    (∀ c : Char, c ≠ '\\' → c ≠ '"' → c ≠ ']' →
      escapeSdElementValue (String.singleton c) = String.singleton c) := by
  refine ⟨?_, by decide, by decide, by decide, ?_⟩
  · intro s t
    unfold escapeSdElementValue
    rw [toList_append, List.foldl_append, foldl_escapeStep_acc]
  · intro c h1 h2 h3
    have hl : (String.singleton c).toList = [c] := rfl
    unfold escapeSdElementValue
    rw [hl]
    simp [List.foldl, escapeStep, h1, h2, h3]
    apply String.ext
    simp [String.data_push, String.singleton]

/-- Witness for C8: the characterization applied to concrete inputs. -/
theorem c8_escape_witness :
    escapeSdElementValue ("a" ++ "]") =
      escapeSdElementValue "a" ++ escapeSdElementValue "]" ∧
    escapeSdElementValue (String.singleton 'a') = String.singleton 'a' :=
  ⟨c8_escape.1 "a" "]", c8_escape.2.2.2.2 'a' (by decide) (by decide) (by decide)⟩

/-- C9: the severity mapping is exhaustive and fixed (Debug 7, Info 6,
Error 3), and every rendered line opens with a PRI equal to
16 * 8 + severity of the message's level. -/
theorem c9_severity_pri :
    (getSeverityCode Level.debug = 7 ∧ getSeverityCode Level.info = 6 ∧
      getSeverityCode Level.error = 3) ∧
    ∀ (f : MTime → String) (cfg : SyslogBackendCfg) (h : Option String)
      (p : Int) (msg : Message),
      ∃ rest, renderLine f cfg h p msg =
        "<" ++ toString (16 * 8 + getSeverityCode msg.Level) ++ ">" ++ rest := by
  refine ⟨⟨rfl, rfl, rfl⟩, ?_⟩
  intro f cfg h p msg
  refine ⟨toString (1 : Int) ++ " " ++ f (msg.Time.getD ⟨0, false⟩) ++ " " ++
    h.getD "-" ++ " " ++
    (if cfg.ApplicationName = "" then "-" else cfg.ApplicationName) ++ " " ++
    toString p ++ " " ++ "-" ++ " [" ++
    (if (sdParams (msg.Data.getD [])).isEmpty then "go-log@32473"
     else "go-log@32473" ++ " " ++ String.intercalate " " (sdParams (msg.Data.getD []))) ++
    "] " ++ (BOM ++ msg.Message), ?_⟩
  rw [renderLine_decomp]
  unfold renderHeader FacilityCode
  simp [String.append_assoc]

/-- C7 counterexample: on a Message with no Data fields the STRUCTURED-DATA
field of the rendered line is the bracketed element `[go-log@32473]`, not
the `-` the claim requires (the line the claim mandates is not produced). -/
theorem c7_sd_counterexample :
    renderLine (fun _ => "T") { ApplicationName := "svc" } (some "myhost") 4321 c7msg =
      "<134>1 T myhost svc 4321 - [go-log@32473] ﻿login ok" ∧
    renderLine (fun _ => "T") { ApplicationName := "svc" } (some "myhost") 4321 c7msg ≠
      "<134>1 T myhost svc 4321 - - ﻿login ok" := by
  refine ⟨by decide, by decide⟩

/-- C7 (amended): the STRUCTURED-DATA field is always a single bracketed
SD-element with the fixed element ID `go-log@32473`; when the Message
carries Data fields it additionally holds one space-separated
`key="escaped-value"` parameter per entry (see `sdParams`), and when it
carries none it is the bracketed element ID alone — never `-`. -/
theorem c7_sd_element_amended :
    ∀ (f : MTime → String) (cfg : SyslogBackendCfg) (h : Option String)
      (p : Int) (msg : Message),
      renderLine f cfg h p msg =
        renderHeader f cfg h p msg ++ " [" ++
          (if (sdParams (msg.Data.getD [])).isEmpty then "go-log@32473"
           else "go-log@32473" ++ " " ++
             String.intercalate " " (sdParams (msg.Data.getD []))) ++
          "] " ++ (BOM ++ msg.Message) :=
  renderLine_decomp

/-- C1 (code bug): on a live connection whose first write fails,
`writeAndRetry` closes the connection but leaves `b.conn` set, so the
`connect()` that follows is a no-op: no reconnect is dialed (zero dial
events) even though the dial oracle would supply a fresh connection `1`,
and the resend is issued on the already-closed connection `0`, failing even
though the write oracle accepts every later write; the state is then forced
to disconnected and the error returned. The event trace also exhibits the
octet-count framing `"5 hello"` and the resend of the same payload. -/
theorem c1_retry_code_bug :
    c1r.2 = some "cannot write log message" ∧
    c1r.1.conn = none ∧
    dialCountOf c1r.1.events = 0 ∧
    c1r.1.events = [Event.write 0 "5 hello", Event.close 0,
      Event.write 0 "5 hello", Event.close 0] := by
  refine ⟨by decide, by decide, by decide, by decide⟩

/-- C5 counterexample: with a dial oracle that always fails (unreachable
host), `NewSyslogBackend` itself performs the connection attempt and
returns the error to the constructor's caller — construction fails, so no
first `Log` call can be the one that attempts to connect. -/
theorem c5_eager_counterexample :
    c5r.2 = some "cannot initialize syslog backend: cannot connect to the syslog daemon" ∧
    c5r.1.events = [Event.dial] ∧ c5r.1.conn = none := by
  refine ⟨by decide, by decide, by decide⟩

/-- C5 (amended): the connection is established eagerly at construction
(`NewSyslogBackend` dials, and fails when the host is unreachable); a null
connection state (after a send failure) is lazily re-established by the
next `Log` call, and when that reconnect attempt fails the error is written
to the diagnostic channel while nothing is raised to `Log`'s caller
(`SyslogBackend.Log` returns only the new world). -/
theorem c5_lazy_amended :
    ∀ (dial : DialOracle) (writeOk : WriteOracle) (fmtTime : MTime → String)
      (cfg : SyslogBackendCfg) (h : Option String) (p : Int) (w : World)
      (msg : Message),
      (w.conn = none → dial w.dialCount = none →
        (SyslogBackend.Log dial writeOk fmtTime cfg h p w msg).conn = none ∧
        (SyslogBackend.Log dial writeOk fmtTime cfg h p w msg).diagnostics =
          w.diagnostics ++
            ["cannot write log message: cannot connect to the syslog daemon"] ∧
        (SyslogBackend.Log dial writeOk fmtTime cfg h p w msg).events =
          w.events ++ [Event.dial]) ∧
      (dial 0 = none →
        (NewSyslogBackend dial cfg).2.isSome = true ∧
        (NewSyslogBackend dial cfg).1.events = [Event.dial] ∧
        (NewSyslogBackend dial cfg).1.conn = none) := by
  intro dial writeOk fmtTime cfg h p w msg
  constructor
  · intro hc hd
    have hlit : ("cannot write log message: " ++
        "cannot connect to the syslog daemon" : String) =
        "cannot write log message: cannot connect to the syslog daemon" := rfl
    simp [SyslogBackend.Log, SyslogBackend.writeAndRetry, SyslogBackend.connect,
      hc, hd, hlit]
  · intro h0
    simp [NewSyslogBackend, SyslogBackend.connect, h0]

/-- Witness for C5 (amended) at a disconnected world and an always-failing
dial oracle. -/
theorem c5_lazy_amended_witness :
    ((SyslogBackend.Log (fun _ => none) (fun _ => true) (fun _ => "T") c5cfg
        (some "h") 1 c5wDis msgInfo).conn = none ∧
      (SyslogBackend.Log (fun _ => none) (fun _ => true) (fun _ => "T") c5cfg
        (some "h") 1 c5wDis msgInfo).diagnostics =
        c5wDis.diagnostics ++
          ["cannot write log message: cannot connect to the syslog daemon"] ∧
      (SyslogBackend.Log (fun _ => none) (fun _ => true) (fun _ => "T") c5cfg
        (some "h") 1 c5wDis msgInfo).events = c5wDis.events ++ [Event.dial]) ∧
    ((NewSyslogBackend (fun _ => none) c5cfg).2.isSome = true ∧
      (NewSyslogBackend (fun _ => none) c5cfg).1.events = [Event.dial] ∧
      (NewSyslogBackend (fun _ => none) c5cfg).1.conn = none) :=
  ⟨(c5_lazy_amended (fun _ => none) (fun _ => true) (fun _ => "T") c5cfg
      (some "h") 1 c5wDis msgInfo).1 rfl rfl,
   (c5_lazy_amended (fun _ => none) (fun _ => true) (fun _ => "T") c5cfg
      (some "h") 1 c5wDis msgInfo).2 rfl⟩

/-- C6 (code bug): on input `"disk full"` (no 0x1F separator) the generic
writer sink logs a message whose body is the empty string — not the raw
input the claim requires — because the source assigns `msg` only inside the
`idx >= 0` branch; the separator-present cases behave as claimed
(`"error\x1Fdisk full"` yields Level error with body `"disk full"`). -/
theorem c6_write_code_bug :
    Option.map Message.Message ((lA.Write now0 "disk full").1) = some "" ∧
    some "" ≠ some "disk full" ∧
    Option.map Message.Message
      ((lA.Write now0 "error\x1Fdisk full").1) = some "disk full" ∧
    Option.map Message.Level
      ((lA.Write now0 "error\x1Fdisk full").1) = some Level.error := by
  refine ⟨by decide, by decide, by decide, by decide⟩

end GoLog
